import Mathlib

/-!
# Verification of the seed-quickstart state-update engine

Shallow embedding of `src/lib.rs` (kartevonmorgen/seed-quickstart): the
application model, the message type, the `update` reducer, the form
validation, and the Nominatim city-mapping logic. Rust `f64` coordinate
values are represented exactly as rationals (`Rat`); `str::parse::<f64>`
is modelled on finite decimal literals. A panic (here: the
`.parse().unwrap()` calls in the city-search handler) is modelled by the
whole transition returning `none`.
-/

namespace SeedQuickstart

/-- `MapEntry` from lib.rs: the globally cached shape handed to the JS map. -/
structure MapEntry where
  id : String
  name : String
  lat : Rat
  lng : Rat
deriving DecidableEq

/-- `LatLng` from lib.rs. -/
structure LatLng where
  lat : Rat
  lng : Rat
deriving DecidableEq

/-- `BBox` from lib.rs. -/
structure BBox where
  north_east : LatLng
  south_west : LatLng
deriving DecidableEq

/-- `BBox::to_vec`: [swLat, swLng, neLat, neLng]. -/
def BBox.to_vec (b : BBox) : List Rat :=
  [b.south_west.lat, b.south_west.lng, b.north_east.lat, b.north_east.lng]

/-- `EntryFormModel` from lib.rs. -/
structure EntryFormModel where
  title : String
  description : String
deriving DecidableEq

/-- `Min` from lib.rs (newtype over usize). -/
structure Min where
  val : Nat
deriving DecidableEq

/-- `Max` from lib.rs (newtype over usize). -/
structure Max where
  val : Nat
deriving DecidableEq

/-- `Actual` from lib.rs (newtype over usize). -/
structure Actual where
  val : Nat
deriving DecidableEq

/-- `EntryFormInvalidity` from lib.rs. -/
inductive EntryFormInvalidity where
  | TitleLength : Min → Max → Actual → EntryFormInvalidity
deriving DecidableEq

/-- `Entry` from lib.rs. -/
structure Entry where
  id : String
  title : String
  description : String
  lat : Rat
  lng : Rat
deriving DecidableEq

/-- `EntrySearchResponse` from lib.rs. -/
structure EntrySearchResponse where
  visible : List Entry
  invisible : List Entry
deriving DecidableEq

/-- `NominatimAddress` from lib.rs. -/
structure NominatimAddress where
  city : Option String
  country : String
  country_code : String
  locality : Option String
  postcode : Option String
  state : Option String
  village : Option String
deriving DecidableEq

/-- `NominatimEntry` from lib.rs.  The Rust fields `class` and `r#type` are
renamed `cls` and `typ` because `class` is a Lean keyword. -/
structure NominatimEntry where
  address : NominatimAddress
  boundingbox : List String
  cls : String
  typ : String
  display_name : String
  lat : Option String
  lon : Option String
deriving DecidableEq

/-- `NominatimEntry::is_city` from lib.rs. -/
def NominatimEntry.is_city (e : NominatimEntry) : Bool :=
  (e.cls == "place" && (e.typ == "city" || e.typ == "village"))
    || (e.cls == "boundary" && e.typ == "administrative")

/-- `City` from lib.rs. -/
structure City where
  name : String
  country : String
  lat : Rat
  lng : Rat
deriving DecidableEq

/-- `Model` from lib.rs: the single application state owned by the engine. -/
structure Model where
  cities : Option (List City)
  bbox : Option BBox
  selected : Option Entry
  entries : List Entry
  show_new_entry_form : Bool
  new_entry_form : EntryFormModel
  new_entry_form_errors : List EntryFormInvalidity
deriving DecidableEq

/-- `Model::default` from lib.rs. -/
def Model.default : Model :=
  { cities := none
    bbox := none
    selected := none
    entries := []
    show_new_entry_form := false
    new_entry_form := { title := "", description := "" }
    new_entry_form_errors := [] }

/-- `EntryFormMsg` from lib.rs. -/
inductive EntryFormMsg where
  | Title : String → EntryFormMsg
  | Description : String → EntryFormMsg
deriving DecidableEq

/-- `Msg` from lib.rs.  Rust `Result` becomes `Except`. -/
inductive Msg where
  | CitySearch : String → Msg
  | CitySearchResult : Except String (List NominatimEntry) → Msg
  | EntrySearchResult : Except String EntrySearchResponse → Msg
  | SetMapCenter : Rat → Rat → Msg
  | UpdateBBox : BBox → Msg
  | EntrySelected : String → Msg
  | ShowNewEntryForm : Msg
  | EntryForm : EntryFormMsg → Msg
  | CreateNewEntry : Msg

/-- The side effects `update` can request: the two `perform_cmd` fetches and
the two extern JS calls (`setMapCenter`, `updateMap`). -/
inductive Effect where
  | fetchNominatim : String → Effect
  | fetchEntries : BBox → Effect
  | setMapCenter : Rat → Rat → Effect
  | updateMap : Effect
deriving DecidableEq

/-- `Validate::validate` for `EntryFormModel` from lib.rs.  semval's
`ValidationContext::invalidate_if` records the invalidity when the condition
holds; `.into()` yields `Ok(())` when no invalidity was recorded and
`Err(context)` otherwise.  Rust `String::len` is the UTF-8 byte length,
embedded as `String.utf8ByteSize`. -/
def validate (m : EntryFormModel) : Except (List EntryFormInvalidity) Unit :=
  let ctx : List EntryFormInvalidity :=
    if m.title.utf8ByteSize < 3 then
      [EntryFormInvalidity.TitleLength ⟨3⟩ ⟨25⟩ ⟨m.title.utf8ByteSize⟩]
    else []
  if ctx.isEmpty then Except.ok () else Except.error ctx

/-- Digit run to a natural number, most significant first. -/
def digitsToNat (cs : List Char) : Nat :=
  cs.foldl (fun a c => a * 10 + (c.toNat - 48)) 0

/-- Exponent tail of a float literal: optional sign then a non-empty digit
run, nothing after. -/
def parseExpTail (cs : List Char) : Option Int :=
  let sgn : Int := match cs with
    | '-' :: _ => -1
    | _ => 1
  let ds : List Char := match cs with
    | '-' :: r => r
    | '+' :: r => r
    | _ => cs
  if ds.isEmpty || !(ds.all Char.isDigit) then none
  else some (sgn * (digitsToNat ds : Int))

/-- The rational `m * 10 ^ (k - s)`: integer mantissa `m`, `s` fractional
digits, decimal exponent `k`. -/
def decToRat (m : Int) (s : Nat) (k : Int) : Rat :=
  let e : Int := k - (s : Int)
  if 0 ≤ e then Rat.divInt (m * (10 : Int) ^ e.toNat) 1
  else Rat.divInt m ((10 : Int) ^ (-e).toNat)

/-- Mantissa and optional exponent of a float literal (after the sign `sgn`). -/
def parseF64Body (sgn : Int) (cs : List Char) : Option Rat :=
  let intPart := cs.takeWhile Char.isDigit
  let rest1 := cs.drop intPart.length
  let fracPart : List Char := match rest1 with
    | '.' :: r => r.takeWhile Char.isDigit
    | _ => []
  let rest2 : List Char := match rest1 with
    | '.' :: r => r.drop (r.takeWhile Char.isDigit).length
    | _ => rest1
  if intPart.isEmpty && fracPart.isEmpty then none
  else
    let m : Int := sgn * (digitsToNat (intPart ++ fracPart) : Int)
    match rest2 with
    | [] => some (decToRat m fracPart.length 0)
    | 'e' :: r => (parseExpTail r).map (fun k => decToRat m fracPart.length k)
    | 'E' :: r => (parseExpTail r).map (fun k => decToRat m fracPart.length k)
    | _ => none

/-- Model of Rust `str::parse::<f64>` restricted to finite decimal literals
(optional sign, digits with optional fractional part, optional exponent, at
least one mantissa digit).  The special spellings `inf`/`NaN` are not
modelled; the coordinate strings of this application are plain decimals.
`none` means the parse fails (`unwrap` would panic). -/
def parseF64 (s : String) : Option Rat :=
  match s.data with
  | '-' :: cs => parseF64Body (-1) cs
  | '+' :: cs => parseF64Body 1 cs
  | cs => parseF64Body 1 cs

/-- One record of the city pipeline in the `CitySearchResult(Ok _)` arm:
`none` models the panic of `.parse().unwrap()` on an unparseable coordinate
string; `some none` models the record being dropped by the `filter_map`
(missing lat, lon, or address city); `some (some c)` models a produced City. -/
def cityOf (e : NominatimEntry) : Option (Option City) :=
  match e.lat, e.lon, e.address.city with
  | some lat, some lon, some name =>
    match parseF64 lat, parseF64 lon with
    | some la, some ln =>
      some (some { name := name, country := e.address.country, lat := la, lng := ln })
    | _, _ => none
  | _, _, _ => some none

/-- The whole city pipeline of the `CitySearchResult(Ok _)` arm: filter to
`is_city`, then `filter_map` each record; `none` if any kept record panics. -/
def citiesOf (res : List NominatimEntry) : Option (List City) :=
  ((res.filter NominatimEntry.is_city).mapM cityOf).map List.reduceOption

/-- `Entry` → `MapEntry` as in the `EntrySearchResult(Ok _)` arm. -/
def mapEntryOfEntry (e : Entry) : MapEntry :=
  { id := e.id, name := e.title, lat := e.lat, lng := e.lng }

/-- `update` from lib.rs.  The state threaded through is the `Model`, the
global `MAP_ENTRIES` cache, and the list of requested effects (the
`perform_cmd` futures and the extern JS calls).  `none` models a panic. -/
def update (msg : Msg) (model : Model) (mapEntries : List MapEntry) :
    Option (Model × List MapEntry × List Effect) :=
  match msg with
  | Msg.CitySearch txt =>
    some (model, mapEntries, [Effect.fetchNominatim txt])
  | Msg.CitySearchResult (Except.ok res) =>
    (citiesOf res).map (fun cities =>
      ((if cities.isEmpty then model else { model with cities := some cities }),
        mapEntries, []))
  | Msg.CitySearchResult (Except.error _) =>
    some (model, mapEntries, [])
  | Msg.EntrySearchResult (Except.ok res) =>
    some ({ model with entries := res.visible },
      res.visible.map mapEntryOfEntry, [Effect.updateMap])
  | Msg.EntrySearchResult (Except.error _) =>
    some (model, mapEntries, [])
  | Msg.SetMapCenter lat lng =>
    some (model, mapEntries, [Effect.setMapCenter lat lng])
  | Msg.UpdateBBox bbox =>
    some ({ model with bbox := some bbox }, mapEntries, [Effect.fetchEntries bbox])
  | Msg.EntrySelected id =>
    some ({ model with selected := model.entries.find? (fun e => e.id == id) },
      mapEntries, [])
  | Msg.ShowNewEntryForm =>
    some ({ model with show_new_entry_form := true }, mapEntries, [])
  | Msg.EntryForm (EntryFormMsg.Title txt) =>
    some ({ model with new_entry_form := { model.new_entry_form with title := txt } },
      mapEntries, [])
  | Msg.EntryForm (EntryFormMsg.Description txt) =>
    some ({ model with
            new_entry_form := { model.new_entry_form with description := txt } },
      mapEntries, [])
  | Msg.CreateNewEntry =>
    match validate model.new_entry_form with
    | Except.ok _ => some (model, mapEntries, [])
    | Except.error err =>
      some ({ model with new_entry_form_errors := err }, mapEntries, [])

/-- Process a sequence of messages in arrival order, threading model and
global cache; the per-step effects are handed to the runtime and dropped
here.  `none` as soon as one transition panics. -/
def processMsgs (msgs : List Msg) (model : Model) (mapEntries : List MapEntry) :
    Option (Model × List MapEntry) :=
  match msgs with
  | [] => some (model, mapEntries)
  | m :: rest =>
    match update m model mapEntries with
    | none => none
    | some (model', g', _) => processMsgs rest model' g'

/-! ## Concrete sample data used by counterexamples and witnesses -/

/-- A fully well-formed Nominatim record (class place/city, parseable
coordinates). -/
def berlinOk : NominatimEntry :=
  { address := { city := some "Berlin", country := "Germany", country_code := "de",
                 locality := none, postcode := none, state := none, village := none }
    boundingbox := []
    cls := "place"
    typ := "city"
    display_name := "Berlin"
    lat := some "52.52"
    lon := some "13.405" }

/-- The same record with a latitude string that is present but does not parse
as a number. -/
def berlinBad : NominatimEntry :=
  { berlinOk with lat := some "abc" }

/-- The City that `berlinOk` maps to. -/
def berlinCity : City :=
  { name := "Berlin", country := "Germany",
    lat := Rat.divInt 5252 100, lng := Rat.divInt 13405 1000 }

/-- A sample entry used by witnesses. -/
def sampleEntry : Entry :=
  { id := "e1", title := "Repair Café", description := "fix things",
    lat := Rat.divInt 52 1, lng := Rat.divInt 13 1 }

/-! ## Claim theorems -/

/-- C4: processing a successful entries search replaces the state's entries
with exactly the payload's visible list (the invisible list is dropped), and
the projection layer is notified synchronously in the same transition,
receiving for each entry exactly its {id, name, coordinate} triple (the
`MAP_ENTRIES` cache is set to the projected list and `updateMap` is called). -/
theorem entries_search_success_replaces_entries_and_projects
    (res : EntrySearchResponse) (m : Model) (g : List MapEntry) :
    update (Msg.EntrySearchResult (Except.ok res)) m g =
      some ({ m with entries := res.visible },
        res.visible.map mapEntryOfEntry, [Effect.updateMap])
  ∧ (∀ e : Entry, mapEntryOfEntry e =
      { id := e.id, name := e.title, lat := e.lat, lng := e.lng }) :=
  ⟨rfl, fun _ => rfl⟩

/-- C5: processing `UpdateBBox b` (ViewportChanged) sets the viewport to `b`
synchronously in the same transition and schedules exactly one entries-search
for `b`; moreover, whichever way the subsequent entries-search resolves
(success or failure), the viewport stays `b`. -/
theorem viewport_changed_sets_viewport_and_schedules_search
    (b : BBox) (m : Model) (g : List MapEntry) :
    update (Msg.UpdateBBox b) m g =
      some ({ m with bbox := some b }, g, [Effect.fetchEntries b])
  ∧ (∀ r : Except String EntrySearchResponse,
      (update (Msg.EntrySearchResult r) { m with bbox := some b } g).map
        (fun out => out.1.bbox) = some (some b)) := by
  refine ⟨rfl, fun r => ?_⟩
  cases r <;> rfl

/-- C6: processing `EntrySelected id` sets `selected` to the first entry of
the entries list whose id matches, leaves every other field (and the cache)
unchanged, and the result is `none` (selection cleared, not an error) exactly
when no entry matches. -/
theorem entry_selected_sets_first_match_or_clears
    (id : String) (m : Model) (g : List MapEntry) :
    update (Msg.EntrySelected id) m g =
      some ({ m with selected := m.entries.find? (fun e => e.id == id) }, g, [])
  ∧ (m.entries.find? (fun e => e.id == id) = none ↔
      m.entries.all (fun e => !(e.id == id)) = true) := by
  refine ⟨rfl, ?_⟩
  simp [List.find?_eq_none]

/-- C7: a city-search failure message and an entries-search failure message
each leave the model and the cache entirely unchanged and schedule no
follow-up work. -/
theorem search_failures_leave_state_unchanged
    (r1 r2 : String) (m : Model) (g : List MapEntry) :
    update (Msg.CitySearchResult (Except.error r1)) m g = some (m, g, [])
  ∧ update (Msg.EntrySearchResult (Except.error r2)) m g = some (m, g, []) :=
  ⟨rfl, rfl⟩

/-- C9: after the sequence ViewportChanged(B1), ViewportChanged(B2), then
B2's entries-search success `r2`, then B1's success `r1`, the final entries
list is `r1.visible` — the last-processed success wins, regardless of issue
order. -/
theorem overlapping_searches_last_applied_wins
    (b1 b2 : BBox) (r1 r2 : EntrySearchResponse) (m : Model) (g : List MapEntry) :
    processMsgs
      [Msg.UpdateBBox b1, Msg.UpdateBBox b2,
       Msg.EntrySearchResult (Except.ok r2), Msg.EntrySearchResult (Except.ok r1)]
      m g =
      some ({ m with bbox := some b2, entries := r1.visible },
        r1.visible.map mapEntryOfEntry) := rfl

/-- A state holding stale form violations together with a form that now
validates: the title "Hello" is valid, the violation list is non-empty. -/
def staleErrorsState : Model :=
  { Model.default with
    new_entry_form := { title := "Hello", description := "" }
    new_entry_form_errors := [EntryFormInvalidity.TitleLength ⟨3⟩ ⟨25⟩ ⟨2⟩] }

/-- C1 counterexample: submitting a form that validates does NOT clear the
stored violations — the success arm of `CreateNewEntry` leaves
`new_entry_form_errors` untouched, so a stale non-empty violation list
survives a successful submit. -/
theorem submit_valid_form_keeps_stale_violations :
    validate staleErrorsState.new_entry_form = Except.ok ()
  ∧ update Msg.CreateNewEntry staleErrorsState [] = some (staleErrorsState, [], [])
  ∧ staleErrorsState.new_entry_form_errors ≠ [] :=
  ⟨rfl, rfl, by decide⟩

/-- C1 (amended): on `CreateNewEntry`, if the draft form validates the state
is left entirely unchanged (violations are NOT cleared); if validation fails,
`new_entry_form_errors` becomes exactly the produced violations and the draft
form is unchanged; in particular submitting {title "Hi", description "x"}
stores exactly [TitleLength(3,25,2)]. -/
theorem submit_new_entry_behaviour (m : Model) (g : List MapEntry) :
    (∀ u : Unit, validate m.new_entry_form = Except.ok u →
       update Msg.CreateNewEntry m g = some (m, g, []))
  ∧ (∀ errs, validate m.new_entry_form = Except.error errs →
       update Msg.CreateNewEntry m g =
         some ({ m with new_entry_form_errors := errs }, g, []))
  ∧ (m.new_entry_form = { title := "Hi", description := "x" } →
       update Msg.CreateNewEntry m g =
         some ({ m with new_entry_form_errors :=
           [EntryFormInvalidity.TitleLength ⟨3⟩ ⟨25⟩ ⟨2⟩] }, g, [])) := by
  have hu : update Msg.CreateNewEntry m g =
      (match validate m.new_entry_form with
       | Except.ok _ => some (m, g, [])
       | Except.error err =>
         some ({ m with new_entry_form_errors := err }, g, [])) := rfl
  refine ⟨fun u h => ?_, fun errs h => ?_, fun h => ?_⟩
  · rw [hu, h]
  · rw [hu, h]
  · rw [hu, h]; rfl

/-- A state whose draft form is valid and whose violation list is empty. -/
def validFormState : Model :=
  { Model.default with new_entry_form := { title := "Hello", description := "" } }

/-- Witness for the amended C1: both branches at concrete states. -/
theorem submit_new_entry_behaviour_witness :
    update Msg.CreateNewEntry validFormState [] = some (validFormState, [], [])
  ∧ update Msg.CreateNewEntry Model.default [] =
      some ({ Model.default with new_entry_form_errors :=
        [EntryFormInvalidity.TitleLength ⟨3⟩ ⟨25⟩ ⟨0⟩] }, [], []) :=
  ⟨(submit_new_entry_behaviour validFormState []).1 () rfl,
   (submit_new_entry_behaviour Model.default []).2.1
     [EntryFormInvalidity.TitleLength ⟨3⟩ ⟨25⟩ ⟨0⟩] rfl⟩

/-- C2: a decodable city-search payload containing one well-formed record and
one record whose latitude string is present but not numeric makes the whole
handler panic (`.parse().unwrap()`), aborting the entire batch — the
well-formed record is lost too, contradicting the exclude-and-continue
tolerance the spec requires. -/
theorem malformed_coordinate_aborts_whole_batch :
    update (Msg.CitySearchResult (Except.ok [berlinOk, berlinBad])) Model.default [] = none
  ∧ cityOf berlinOk = some (some berlinCity)
  ∧ berlinBad.is_city = true
  ∧ berlinBad.lat.isSome = true ∧ berlinBad.lon.isSome = true
  ∧ berlinBad.address.city.isSome = true :=
  ⟨rfl, by decide, rfl, rfl, rfl, rfl⟩

/-- C8 counterexample: the length checked by `validate` is the UTF-8 byte
length, not the character count — the one-character title "日" (3 bytes)
passes validation although the claim requires a TitleLength violation for
every title of 1 character. -/
theorem one_char_title_passes_validation :
    validate { title := "日", description := "" } = Except.ok ()
  ∧ ("日" : String).length = 1 :=
  ⟨rfl, rfl⟩

/-- C8 (amended): `validate` is pure and deterministic; a title of UTF-8 byte
length 0, 1 or 2 yields exactly one violation `TitleLength(3, 25, len)`; a
title of byte length ≥ 3 yields no violations. -/
theorem validate_title_length_rule (f : EntryFormModel) :
    validate f = validate f
  ∧ (f.title.utf8ByteSize < 3 →
      validate f = Except.error
        [EntryFormInvalidity.TitleLength ⟨3⟩ ⟨25⟩ ⟨f.title.utf8ByteSize⟩])
  ∧ (3 ≤ f.title.utf8ByteSize → validate f = Except.ok ()) := by
  refine ⟨rfl, fun h => ?_, fun h => ?_⟩
  · simp [validate, h]
  · simp [validate, Nat.not_lt_of_le h]

/-- Witness for the amended C8: both branches at concrete forms. -/
theorem validate_title_length_rule_witness :
    validate { title := "Hi", description := "x" } =
      Except.error [EntryFormInvalidity.TitleLength ⟨3⟩ ⟨25⟩ ⟨2⟩]
  ∧ validate { title := "abc", description := "" } = Except.ok () :=
  ⟨(validate_title_length_rule { title := "Hi", description := "x" }).2.1 (by decide),
   (validate_title_length_rule { title := "abc", description := "" }).2.2 (by decide)⟩

/-- C3 counterexample: a payload whose filtered-and-complete record set is
non-empty (it contains `berlinOk`, which maps to `berlinCity`), yet the
transition produces no successor state at all — the unparseable coordinate of
`berlinBad` panics the handler — so `cities` does not become the mapped set. -/
theorem nonempty_city_set_lost_on_panic :
    cityOf berlinOk = some (some berlinCity)
  ∧ processMsgs [Msg.CitySearchResult (Except.ok [berlinBad, berlinOk])]
      Model.default [] = none :=
  ⟨by decide, rfl⟩

/-- C3 (amended): for every city-search success payload whose pipeline does
not panic (every kept record's coordinate strings parse, witnessed by
`citiesOf res = some cities`), the state's `cities` becomes exactly the
filtered-and-mapped set when that set is non-empty and keeps its prior value
when the set is empty; and a record missing its latitude, longitude, or
address city is always excluded by the pipeline. -/
theorem city_search_success_filters_and_replaces
    (res : List NominatimEntry) (cities : List City) (m : Model) (g : List MapEntry)
    (h : citiesOf res = some cities) :
    update (Msg.CitySearchResult (Except.ok res)) m g =
      some ((if cities.isEmpty then m else { m with cities := some cities }), g, [])
  ∧ (∀ e : NominatimEntry, e.is_city = true →
      (e.lat = none ∨ e.lon = none ∨ e.address.city = none) →
      cityOf e = some none) := by
  constructor
  · have hu : update (Msg.CitySearchResult (Except.ok res)) m g =
        (citiesOf res).map (fun cs =>
          ((if cs.isEmpty then m else { m with cities := some cs }), g, [])) := rfl
    rw [hu, h]; rfl
  · intro e _ hmiss
    cases hl : e.lat <;> cases ho : e.lon <;> cases hc : e.address.city <;>
      simp_all [cityOf]

/-- `berlinOk` with the address city removed: a record the pipeline drops. -/
def berlinNoName : NominatimEntry :=
  { berlinOk with address := { berlinOk.address with city := none } }

/-- Witness for the amended C3: non-empty replacement, empty-set no-op, and
exclusion of a record without a resolvable name, at concrete inputs. -/
theorem city_search_success_filters_and_replaces_witness :
    update (Msg.CitySearchResult (Except.ok [berlinOk])) Model.default [] =
      some ({ Model.default with cities := some [berlinCity] }, [], [])
  ∧ update (Msg.CitySearchResult (Except.ok [])) Model.default [] =
      some (Model.default, [], [])
  ∧ cityOf berlinNoName = some none := by
  refine ⟨?_, ?_, ?_⟩
  · have h := (city_search_success_filters_and_replaces [berlinOk] [berlinCity]
      Model.default [] (by decide)).1
    simpa using h
  · have h := (city_search_success_filters_and_replaces [] [] Model.default [] rfl).1
    simpa using h
  · exact (city_search_success_filters_and_replaces [] [] Model.default [] rfl).2
      berlinNoName rfl (Or.inr (Or.inr rfl))

/-- Every non-panicking transition keeps the global MAP_ENTRIES cache equal
to the projection of the state's entries list, provided that held before. -/
theorem update_preserves_map_cache (msg : Msg) (m : Model) (g : List MapEntry)
    (h : g = m.entries.map mapEntryOfEntry) :
    ∀ m' g' eff, update msg m g = some (m', g', eff) →
      g' = m'.entries.map mapEntryOfEntry := by
  intro m' g' eff hu
  cases msg with
  | CitySearch txt =>
    simp [update] at hu
    obtain ⟨rfl, rfl, rfl⟩ := hu
    exact h
  | CitySearchResult r =>
    cases r with
    | error s =>
      simp [update] at hu
      obtain ⟨rfl, rfl, rfl⟩ := hu
      exact h
    | ok res =>
      cases hc : citiesOf res with
      | none => simp [update, hc] at hu
      | some cities =>
        simp [update, hc] at hu
        obtain ⟨rfl, rfl, rfl⟩ := hu
        split <;> exact h
  | EntrySearchResult r =>
    cases r with
    | error s =>
      simp [update] at hu
      obtain ⟨rfl, rfl, rfl⟩ := hu
      exact h
    | ok res =>
      simp [update] at hu
      obtain ⟨rfl, rfl, rfl⟩ := hu
      rfl
  | SetMapCenter lat lng =>
    simp [update] at hu
    obtain ⟨rfl, rfl, rfl⟩ := hu
    exact h
  | UpdateBBox bbox =>
    simp [update] at hu
    obtain ⟨rfl, rfl, rfl⟩ := hu
    exact h
  | EntrySelected id =>
    simp [update] at hu
    obtain ⟨rfl, rfl, rfl⟩ := hu
    exact h
  | ShowNewEntryForm =>
    simp [update] at hu
    obtain ⟨rfl, rfl, rfl⟩ := hu
    exact h
  | EntryForm e_msg =>
    cases e_msg <;> simp [update] at hu <;> obtain ⟨rfl, rfl, rfl⟩ := hu <;> exact h
  | CreateNewEntry =>
    cases hv : validate m.new_entry_form with
    | ok u =>
      simp [update, hv] at hu
      obtain ⟨rfl, rfl, rfl⟩ := hu
      exact h
    | error errs =>
      simp [update, hv] at hu
      obtain ⟨rfl, rfl, rfl⟩ := hu
      exact h

/-- The cache-projection invariant is preserved along any message sequence. -/
theorem processMsgs_preserves_map_cache (msgs : List Msg) :
    ∀ m g, g = m.entries.map mapEntryOfEntry →
      ∀ out, processMsgs msgs m g = some out →
        out.2 = out.1.entries.map mapEntryOfEntry := by
  induction msgs with
  | nil =>
    intro m g h out hp
    simp [processMsgs] at hp
    rw [← hp]
    exact h
  | cons msg rest ih =>
    intro m g h out hp
    simp only [processMsgs] at hp
    cases hu : update msg m g with
    | none =>
      rw [hu] at hp
      exact Option.noConfusion hp
    | some trip =>
      obtain ⟨m', g', eff⟩ := trip
      rw [hu] at hp
      exact ih m' g' (update_preserves_map_cache msg m g h m' g' eff hu) out hp

/-- C10: starting from the initial state (default model, empty cache), after
any successfully processed message sequence the MAP_ENTRIES cache equals the
state's entries list projected to {id, name, lat, lng}; every message other
than a successful entries-search leaves both the cache and the entries list
unchanged; and a successful entries-search updates both together in the same
transition. -/
theorem map_cache_invariant :
    (∀ msgs out, processMsgs msgs Model.default [] = some out →
       out.2 = out.1.entries.map mapEntryOfEntry)
  ∧ (∀ msg m g m' g' eff,
       (∀ res, msg ≠ Msg.EntrySearchResult (Except.ok res)) →
       update msg m g = some (m', g', eff) →
       g' = g ∧ m'.entries = m.entries)
  ∧ (∀ res m g m' g' eff,
       update (Msg.EntrySearchResult (Except.ok res)) m g = some (m', g', eff) →
       m'.entries = res.visible ∧ g' = res.visible.map mapEntryOfEntry) := by
  refine ⟨fun msgs out hp => processMsgs_preserves_map_cache msgs Model.default [] rfl out hp,
          fun msg m g m' g' eff hne hu => ?_, fun res m g m' g' eff hu => ?_⟩
  · cases msg with
    | CitySearch txt =>
      simp [update] at hu
      obtain ⟨rfl, rfl, rfl⟩ := hu
      exact ⟨rfl, rfl⟩
    | CitySearchResult r =>
      cases r with
      | error s =>
        simp [update] at hu
        obtain ⟨rfl, rfl, rfl⟩ := hu
        exact ⟨rfl, rfl⟩
      | ok res =>
        cases hc : citiesOf res with
        | none => simp [update, hc] at hu
        | some cities =>
          simp [update, hc] at hu
          obtain ⟨rfl, rfl, rfl⟩ := hu
          refine ⟨rfl, ?_⟩
          split <;> rfl
    | EntrySearchResult r =>
      cases r with
      | error s =>
        simp [update] at hu
        obtain ⟨rfl, rfl, rfl⟩ := hu
        exact ⟨rfl, rfl⟩
      | ok res => exact absurd rfl (hne res)
    | SetMapCenter lat lng =>
      simp [update] at hu
      obtain ⟨rfl, rfl, rfl⟩ := hu
      exact ⟨rfl, rfl⟩
    | UpdateBBox bbox =>
      simp [update] at hu
      obtain ⟨rfl, rfl, rfl⟩ := hu
      exact ⟨rfl, rfl⟩
    | EntrySelected id =>
      simp [update] at hu
      obtain ⟨rfl, rfl, rfl⟩ := hu
      exact ⟨rfl, rfl⟩
    | ShowNewEntryForm =>
      simp [update] at hu
      obtain ⟨rfl, rfl, rfl⟩ := hu
      exact ⟨rfl, rfl⟩
    | EntryForm e_msg =>
      cases e_msg <;> simp [update] at hu <;> obtain ⟨rfl, rfl, rfl⟩ := hu <;>
        exact ⟨rfl, rfl⟩
    | CreateNewEntry =>
      cases hv : validate m.new_entry_form with
      | ok u =>
        simp [update, hv] at hu
        obtain ⟨rfl, rfl, rfl⟩ := hu
        exact ⟨rfl, rfl⟩
      | error errs =>
        simp [update, hv] at hu
        obtain ⟨rfl, rfl, rfl⟩ := hu
        exact ⟨rfl, rfl⟩
  · simp [update] at hu
    obtain ⟨rfl, rfl, rfl⟩ := hu
    exact ⟨rfl, rfl⟩

/-- Witness for C10: a concrete one-message run, a cache-silent message, and
a successful entries-search, all at concrete inputs. -/
theorem map_cache_invariant_witness :
    [mapEntryOfEntry sampleEntry] =
      ({ Model.default with entries := [sampleEntry] } : Model).entries.map mapEntryOfEntry
  ∧ (([] : List MapEntry) = [] ∧
      ({ Model.default with show_new_entry_form := true } : Model).entries =
        Model.default.entries)
  ∧ (({ Model.default with entries := [sampleEntry] } : Model).entries = [sampleEntry] ∧
      [mapEntryOfEntry sampleEntry] = [sampleEntry].map mapEntryOfEntry) :=
  ⟨map_cache_invariant.1
      [Msg.EntrySearchResult (Except.ok { visible := [sampleEntry], invisible := [] })]
      ({ Model.default with entries := [sampleEntry] }, [mapEntryOfEntry sampleEntry]) rfl,
   map_cache_invariant.2.1 Msg.ShowNewEntryForm Model.default []
      { Model.default with show_new_entry_form := true } [] []
      (fun res hres => Msg.noConfusion hres) rfl,
   map_cache_invariant.2.2 { visible := [sampleEntry], invisible := [] } Model.default []
      { Model.default with entries := [sampleEntry] } [mapEntryOfEntry sampleEntry]
      [Effect.updateMap] rfl⟩

end SeedQuickstart
